import Mathlib

/-!
Shallow embedding of the A2UI rizzcharts client core:
`A2aService.sendMessage` (src/angular/projects/rizzcharts/src/services/a2a_service.ts)
and `ChatService` (src/angular/projects/rizzcharts/src/services/chat_service.ts).

JavaScript values that matter only through truthiness or key presence are
modelled by `JsonVal` (an abstract payload tag plus its truthiness) and
`Option`-valued record fields (key present / absent).
-/

namespace A2UI

/-- An abstract JSON value: an opaque payload identifier plus whether the
value is truthy in JavaScript. -/
structure JsonVal where
  payload : Nat
  isTruthy : Bool
deriving DecidableEq, Repr

/-- The `data` object of a `DataPart`.  The four recognized rendering-command
keys are modelled explicitly (`none` = key absent, `some v` = key present with
value `v`); `extra` stands for any other content (such as a client event
message sent by the user). -/
structure DataObj where
  beginRendering : Option JsonVal := none
  surfaceUpdate : Option JsonVal := none
  dataModelUpdate : Option JsonVal := none
  deleteSurface : Option JsonVal := none
  extra : Option Nat := none
deriving DecidableEq, Repr

/-- `Part` from the a2a sdk: a tagged union with kinds `text`, `data`
(with optional metadata mime string) and `file`. -/
inductive Part
  | text (text : String)
  | data (data : DataObj) (metadata : Option String)
  | file (payload : Nat)
deriving DecidableEq, Repr

/-- `UiMessageContent`: one displayable unit inside a turn, an id (uuid,
modelled as a Nat drawn from a counter) wrapping a part. -/
structure UiMessageContent where
  id : Nat
  data : Part
deriving DecidableEq, Repr

/-- Turn status: the code only ever uses `pending` and `completed`. -/
inductive MsgStatus
  | pending
  | completed
deriving DecidableEq, Repr

/-- Turn role: `ui_user` or `ui_agent{name, icon_url}`. -/
inductive Role
  | uiUser
  | uiAgent (name : String) (iconUrl : String)
deriving DecidableEq, Repr

/-- `UiMessage`: one turn of the history. -/
structure UiMessage where
  id : Nat
  context_id : String
  role : Role
  contents : List UiMessageContent
  status : MsgStatus
  created : String
  lastUpdated : String
deriving DecidableEq, Repr

/-- An a2a `Message` result: its parts, with the optional `contextId` read
by `result?.contextId`. -/
structure A2aMessage where
  contextId : Option String := none
  parts : List Part
deriving DecidableEq, Repr

/-- `task.status`: carries an optional status message. -/
structure TaskStatus where
  message : Option A2aMessage := none
deriving DecidableEq, Repr

/-- An a2a `Artifact`: an ordered list of parts. -/
structure Artifact where
  parts : List Part
deriving DecidableEq, Repr

/-- An a2a `Task` result: status, optional artifact array, optional
`contextId`. -/
structure Task where
  contextId : Option String := none
  status : TaskStatus
  artifacts : Option (List Artifact) := none
deriving DecidableEq, Repr

/-- `a2aResponse.result`: a task or a message, discriminated by `kind`. -/
inductive A2aResult
  | task (t : Task)
  | message (m : A2aMessage)
deriving DecidableEq, Repr

/-- `SendMessageSuccessResponse`: the parsed JSON body of a successful
transport response. -/
structure SendMessageSuccessResponse where
  result : A2aResult
deriving DecidableEq, Repr

/-! ## A2aService.sendMessage (a2a_service.ts, lines 26-46)

The `fetch` outcome is modelled by what `response.ok` is and whether
`response.json()` parses.  On a failing response whose body parses, the code
runs `throw new Error(error.error)`; when `response.json()` cannot parse the
body it rejects with a JSON parse error which, having no try/catch around it,
propagates out of `sendMessage` unchanged. -/

/-- The observable outcome of the `fetch` call inside `A2aService.sendMessage`:
whether the response is ok, and the result of `response.json()` on its body.
For a failing response the parsed body is read as `{ error: string }`, whose
`error` field may be absent (`none`). -/
inductive FetchOutcome
  | ok (resp : SendMessageSuccessResponse)
  | okUnparseable
  | fail (errField : Option String)
  | failUnparseable
deriving DecidableEq, Repr

/-- What `A2aService.sendMessage` does after the fetch settles: return the
parsed success envelope, throw `new Error(error.error)` (the transport error
constructed by this code, carrying the body's `error` field), or let the
JSON parse rejection of `response.json()` propagate. -/
inductive A2aSendResult
  | success (resp : SendMessageSuccessResponse)
  | thrown (msg : Option String)
  | jsonRejected
deriving DecidableEq, Repr

/-- `A2aService.sendMessage` response handling (a2a_service.ts lines 40-45):
`if (response.ok) return await response.json();` then
`const error = await response.json(); throw new Error(error.error);`. -/
def a2aSendMessage : FetchOutcome → A2aSendResult
  | FetchOutcome.ok resp => A2aSendResult.success resp
  | FetchOutcome.okUnparseable => A2aSendResult.jsonRejected
  | FetchOutcome.fail errField => A2aSendResult.thrown errField
  | FetchOutcome.failUnparseable => A2aSendResult.jsonRejected

/-! ## ChatService (chat_service.ts)

`sendMessage` is embedded as a pure transition on `ChatState`.  The single
suspension point is the awaited transport call; its settled outcome is a
parameter (`TransportOutcome`).  `uuid()` is modelled as a counter in the
state, `new Date().toISOString()` as two string parameters (cycle start and
completion times).  The external `ModelProcessor` collaborator is modelled by
its `getSurfaces` read, a function of the ordered list of all commands the
service has handed to `processMessages` so far (recorded in the state). -/

/-- The a2ui `ServerToClientMessage` single-key envelopes built by
`ChatService.sendMessage` (lines 111-135). -/
inductive ServerToClientMessage
  | beginRendering (v : JsonVal)
  | surfaceUpdate (v : JsonVal)
  | dataModelUpdate (v : JsonVal)
  | deleteSurface (v : JsonVal)
deriving DecidableEq, Repr

/-- The external `ModelProcessor` collaborator: `getSurfaces` as a function of
every command batch processed so far, in order. -/
structure ModelProcessor where
  getSurfaces : List ServerToClientMessage → List (String × Nat)

/-- The observable state of a `ChatService` singleton: the `history`,
`contextId`, `isA2aStreamOpen` and `surfaces` signals, the ordered list of
commands handed to the processor, and the uuid counter. -/
structure ChatState where
  history : List UiMessage
  contextId : String
  isA2aStreamOpen : Bool
  surfaces : List (String × Nat)
  processorReceived : List ServerToClientMessage
  nextUuid : Nat
deriving DecidableEq, Repr

/-- State at construction: every signal at its initial value
(chat_service.ts lines 32-35). -/
def initialChatState (proc : ModelProcessor) : ChatState :=
  { history := []
    contextId := ""
    isA2aStreamOpen := false
    surfaces := proc.getSurfaces []
    processorReceived := []
    nextUuid := 0 }

/-- An `A2UIClientEventMessage`: only `userAction?.name` is inspected by the
service; the rest of the structured message is an opaque payload. -/
structure A2UIClientEventMessage where
  userActionName : Option String
  payload : Nat
deriving DecidableEq, Repr

/-- The argument of `sendMessage`: a plain string or a structured client
event message. -/
inductive SendInput
  | str (s : String)
  | event (m : A2UIClientEventMessage)
deriving DecidableEq, Repr

/-- `createUserMessagePart` (lines 165-178): a text part for a string, a data
part with the a2ui mime metadata for a structured message. -/
def createUserMessagePart : SendInput → Part
  | SendInput.str s => Part.text s
  | SendInput.event m =>
      Part.data { extra := some m.payload } (some "application/json+a2ui")

/-- `createUserMessageContents` (lines 180-208), threading the uuid counter:
for a string, one content wrapping the text part; for a structured message,
one text content when `userAction?.name` is truthy, otherwise no content. -/
def createUserMessageContents (u : Nat) : SendInput → List UiMessageContent × Nat
  | SendInput.str s =>
      ([{ id := u, data := createUserMessagePart (SendInput.str s) }], u + 1)
  | SendInput.event m =>
      match m.userActionName with
      | some n =>
          if n = "" then ([], u)
          else ([{ id := u, data := Part.text n }], u + 1)
      | none => ([], u)

/-- The user turn built at cycle start (lines 51-62), with the next uuid
counter value.  `uuid()` for the turn id is evaluated before the contents
are built, matching JS field-order evaluation. -/
def mkUserTurn (input : SendInput) (ctxId now : String) (u : Nat) :
    UiMessage × Nat :=
  (({ id := u
      context_id := ctxId
      role := Role.uiUser
      contents := (createUserMessageContents (u + 1) input).1
      status := MsgStatus.pending
      created := now
      lastUpdated := now } : UiMessage),
   (createUserMessageContents (u + 1) input).2)

/-- The agent turn built at cycle start (lines 63-76): empty contents,
status pending. -/
def mkAgentTurn (ctxId now : String) (u : Nat) : UiMessage :=
  { id := u
    context_id := ctxId
    role := Role.uiAgent "MyCharts Agent" "rizz-agent.png"
    contents := []
    status := MsgStatus.pending
    created := now
    lastUpdated := now }

/-- `result?.contextId` (line 91). -/
def resultContextId : A2aResult → Option String
  | A2aResult.task t => t.contextId
  | A2aResult.message m => m.contextId

/-- `if (newContextId) this.contextId.set(newContextId)` (lines 93-95):
a falsy value — absent or the empty string — leaves the signal unchanged. -/
def adoptContextId (curr : String) : Option String → String
  | some c => if c = "" then curr else c
  | none => curr

/-- Response classification (lines 97-109): for a task,
`task.status.message?.parts ?? []` concatenated with
`(task.artifacts ?? []).flatMap(a => a.parts)`; for a message, its parts. -/
def classifyParts : A2aResult → List Part
  | A2aResult.task t =>
      ((t.status.message.map A2aMessage.parts).getD []) ++
        ((t.artifacts.getD []).flatMap Artifact.parts)
  | A2aResult.message m => m.parts

/-- JS truthiness filter on an optionally-present value: keeps `some v` only
when `v` is truthy. -/
def truthyVal : Option JsonVal → Option JsonVal
  | some v => if v.isTruthy then some v else none
  | none => none

/-- The per-part command mapper (lines 112-134): an `if/else if` chain testing
the four recognized keys by truthiness in the order beginRendering,
surfaceUpdate, dataModelUpdate, deleteSurface; non-data parts and data parts
matching no key map to `null`. -/
def toA2uiDataPart : Part → Option ServerToClientMessage
  | Part.data d _ =>
      match truthyVal d.beginRendering with
      | some v => some (ServerToClientMessage.beginRendering v)
      | none =>
        match truthyVal d.surfaceUpdate with
        | some v => some (ServerToClientMessage.surfaceUpdate v)
        | none =>
          match truthyVal d.dataModelUpdate with
          | some v => some (ServerToClientMessage.dataModelUpdate v)
          | none =>
            match truthyVal d.deleteSurface with
            | some v => some (ServerToClientMessage.deleteSurface v)
            | none => none
  | _ => none

/-- The history-content filter (lines 142-144):
`part.kind === 'text' || (part.kind === 'data' && 'beginRendering' in part.data)`
— note key presence (`in`), not truthiness. -/
def isHistoryContentPart : Part → Bool
  | Part.text _ => true
  | Part.data d _ => d.beginRendering.isSome
  | _ => false

/-- The contents pushed onto the agent turn (lines 140-152): each kept part
wrapped in a fresh-uuid `UiMessageContent`, threading the counter. -/
def mkAgentContents (u : Nat) : List Part → List UiMessageContent × Nat
  | [] => ([], u)
  | p :: ps =>
      (({ id := u, data := p } : UiMessageContent) ::
        (mkAgentContents (u + 1) ps).1,
       (mkAgentContents (u + 1) ps).2)

/-- Lines 155-161: a completed copy of the agent turn after the response
contents were pushed into it. -/
def completeAgentTurn (agentMsg : UiMessage) (newContents : List UiMessageContent)
    (completedAt : String) : UiMessage :=
  { agentMsg with
    contents := agentMsg.contents ++ newContents
    lastUpdated := completedAt
    status := MsgStatus.completed }

/-- The settled outcome of the awaited `a2aService.sendMessage` call. -/
inductive TransportOutcome
  | ok (resp : SendMessageSuccessResponse)
  | rejected (e : A2aSendResult)
deriving DecidableEq, Repr

/-- The state after the synchronous prefix of `sendMessage` (lines 50-81):
both turns appended, surfaces snapshotted, stream marked open. -/
def phase1State (proc : ModelProcessor) (s : ChatState) (input : SendInput)
    (now : String) : ChatState :=
  { s with
    history := s.history ++
      [(mkUserTurn input s.contextId now s.nextUuid).1,
       mkAgentTurn s.contextId now (mkUserTurn input s.contextId now s.nextUuid).2]
    surfaces := proc.getSurfaces s.processorReceived
    isA2aStreamOpen := true
    nextUuid := (mkUserTurn input s.contextId now s.nextUuid).2 + 1 }

/-- The state after the success continuation (lines 90-162): adopt a truthy
new context id, classify, map to commands and hand them to the processor,
push kept contents onto the agent turn, close the stream, replace the last
history element with the completed agent turn, re-snapshot surfaces. -/
def successState (proc : ModelProcessor) (s1 : ChatState) (agentMsg : UiMessage)
    (resp : SendMessageSuccessResponse) (completedAt : String) : ChatState :=
  { s1 with
    contextId := adoptContextId s1.contextId (resultContextId resp.result)
    processorReceived := s1.processorReceived ++
      (classifyParts resp.result).filterMap toA2uiDataPart
    isA2aStreamOpen := false
    history := s1.history.dropLast ++
      [completeAgentTurn agentMsg
        (mkAgentContents s1.nextUuid
          ((classifyParts resp.result).filter isHistoryContentPart)).1
        completedAt]
    surfaces := proc.getSurfaces (s1.processorReceived ++
      (classifyParts resp.result).filterMap toA2uiDataPart)
    nextUuid := (mkAgentContents s1.nextUuid
      ((classifyParts resp.result).filter isHistoryContentPart)).2 }

/-- `ChatService.sendMessage` (lines 49-163) as a transition: the state when
the returned promise settles, paired with how it settles.  When the transport
call rejects, only the synchronous prefix ran and the same error is
re-raised; otherwise the success continuation runs to completion. -/
def sendMessage (proc : ModelProcessor) (s : ChatState) (input : SendInput)
    (now completedAt : String) (tr : TransportOutcome) :
    ChatState × Except A2aSendResult Unit :=
  match tr with
  | TransportOutcome.rejected e => (phase1State proc s input now, Except.error e)
  | TransportOutcome.ok resp =>
      (successState proc (phase1State proc s input now)
        (mkAgentTurn s.contextId now (mkUserTurn input s.contextId now s.nextUuid).2)
        resp completedAt,
       Except.ok ())

/-! ## The constructor's event subscription (lines 37-47) -/

/-- An inbound processor event: the message to send, paired with a single-use
completion sink (identified by its id). -/
structure ProcessorEvent where
  message : SendInput
  completionId : Nat
deriving DecidableEq, Repr

/-- A call made on an event's completion sink. -/
inductive SinkCall
  | next (v : List Nat)
  | complete
  | error (e : A2aSendResult)
deriving DecidableEq, Repr

/-- Whether a sink call is terminal: `complete` and `error` are terminal,
`next` is not. -/
def isTerminalSinkCall : SinkCall → Bool
  | SinkCall.complete => true
  | SinkCall.error _ => true
  | SinkCall.next _ => false

/-- The constructor's subscriber (lines 38-46): `await sendMessage(event.message)`
then `next([]); complete()` in the try, `error(err)` in the catch.  Returns
the settled state and the ordered calls made on the event's sink. -/
def handleProcessorEvent (proc : ModelProcessor) (s : ChatState)
    (event : ProcessorEvent) (now completedAt : String) (tr : TransportOutcome) :
    ChatState × List SinkCall :=
  match sendMessage proc s event.message now completedAt tr with
  | (s2, Except.ok _) => (s2, [SinkCall.next [], SinkCall.complete])
  | (s2, Except.error e) => (s2, [SinkCall.error e])

/-! ## Concrete sample values

Closed inputs used to evaluate the development on particular runs. -/

/-- A processor whose surface read is constantly empty. -/
def procW : ModelProcessor := ⟨fun _ => []⟩

/-- A message-result response carrying context id `ctx-1` and one text part. -/
def respW : SendMessageSuccessResponse :=
  ⟨A2aResult.message { contextId := some "ctx-1", parts := [Part.text "hello"] }⟩

/-- A data object whose `beginRendering` key holds a truthy value. -/
def dW : DataObj := { beginRendering := some ⟨5, true⟩ }

/-- A response whose message result is one text part followed by one truthy
`beginRendering` data part. -/
def respBr : SendMessageSuccessResponse :=
  ⟨A2aResult.message
    { contextId := none, parts := [Part.text "x", Part.data dW none] }⟩

/-- A data object whose `beginRendering` key is present but falsy and whose
`surfaceUpdate` key holds a truthy value. -/
def dFalsy : DataObj :=
  { beginRendering := some ⟨7, false⟩, surfaceUpdate := some ⟨8, true⟩ }

/-- A sample inbound processor event. -/
def eventW : ProcessorEvent := { message := SendInput.str "hi", completionId := 0 }

/-- A sample transport rejection. -/
def errW : A2aSendResult := A2aSendResult.thrown (some "boom")

/-- A chat state holding a non-empty context id. -/
def stateCtx : ChatState := { initialChatState procW with contextId := "c0" }

end A2UI

namespace A2UI

/-! ## Helper lemmas -/

/-- The contents built for the agent turn wrap exactly the given parts, in
order. -/
theorem mkAgentContents_fst_map_data (u : Nat) (l : List Part) :
    ((mkAgentContents u l).1).map UiMessageContent.data = l := by
  induction l generalizing u with
  | nil => rfl
  | cons p ps ih => simp [mkAgentContents, ih]

/-- A data part whose `beginRendering` key is truthy maps to the
`beginRendering` envelope. -/
theorem toA2uiDataPart_beginRendering (d : DataObj) (md : Option String)
    (v : JsonVal) (h : d.beginRendering = some v) (ht : v.isTruthy = true) :
    toA2uiDataPart (Part.data d md) =
      some (ServerToClientMessage.beginRendering v) := by
  simp [toA2uiDataPart, truthyVal, h, ht]

/-- Shape of the history after a successful cycle: the starting history, then
the user turn, then the completed agent turn. -/
theorem sendMessage_ok_history (proc : ModelProcessor) (s : ChatState)
    (input : SendInput) (now completedAt : String)
    (resp : SendMessageSuccessResponse) :
    ((sendMessage proc s input now completedAt (TransportOutcome.ok resp)).1).history =
      s.history ++
        [(mkUserTurn input s.contextId now s.nextUuid).1,
         completeAgentTurn
           (mkAgentTurn s.contextId now (mkUserTurn input s.contextId now s.nextUuid).2)
           (mkAgentContents ((mkUserTurn input s.contextId now s.nextUuid).2 + 1)
             ((classifyParts resp.result).filter isHistoryContentPart)).1
           completedAt] := by
  simp [sendMessage, successState, phase1State]

/-! ## Claims -/

/-- C1 counterexample: on a failing transport response whose body cannot be
parsed as JSON, `A2aService.sendMessage` does not throw an error of its own
construction — the `response.json()` rejection propagates unchanged, so the
claimed generic fallback `TransportError` never appears. -/
theorem c1_counterexample :
    a2aSendMessage FetchOutcome.failUnparseable = A2aSendResult.jsonRejected ∧
    ¬ ∃ m, a2aSendMessage FetchOutcome.failUnparseable = A2aSendResult.thrown m := by
  refine ⟨rfl, ?_⟩
  rintro ⟨m, h⟩
  simp [a2aSendMessage] at h

/-- C1 (amended): on a failing transport response whose body parses as JSON,
`sendMessage` throws an error carrying the body's `error` field; when the
body cannot be parsed, the JSON parse rejection propagates to the caller
unchanged instead of a generic transport error. -/
theorem c1_fail_handling (e : Option String) :
    a2aSendMessage (FetchOutcome.fail e) = A2aSendResult.thrown e ∧
    a2aSendMessage FetchOutcome.failUnparseable = A2aSendResult.jsonRejected :=
  ⟨rfl, rfl⟩

/-- C2: every `sendMessage` cycle grows the history by exactly two turns,
whether the transport call succeeds or rejects. -/
theorem c2_history_grows_by_two (proc : ModelProcessor) (s : ChatState)
    (input : SendInput) (now completedAt : String) (tr : TransportOutcome) :
    ((sendMessage proc s input now completedAt tr).1).history.length =
      s.history.length + 2 := by
  cases tr with
  | rejected e => simp [sendMessage, phase1State]
  | ok resp => simp [sendMessage, successState, phase1State]

/-- C4: when the transport call rejects, `sendMessage` re-raises the same
error, the agent turn appended at cycle start remains pending with no
contents, and the stream-open indicator remains true. -/
theorem c4_rejection_leaves_agent_pending (proc : ModelProcessor)
    (s : ChatState) (input : SendInput) (now completedAt : String)
    (e : A2aSendResult) :
    (sendMessage proc s input now completedAt (TransportOutcome.rejected e)).2 =
      Except.error e ∧
    ((sendMessage proc s input now completedAt
        (TransportOutcome.rejected e)).1).isA2aStreamOpen = true ∧
    (((sendMessage proc s input now completedAt
        (TransportOutcome.rejected e)).1).history.getLast?).map
      (fun m => (m.status, m.contents)) = some (MsgStatus.pending, []) := by
  refine ⟨rfl, rfl, ?_⟩
  simp [sendMessage, phase1State, mkAgentTurn]

/-- C3: for every inbound processor event, the subscriber drives `sendMessage`
with the event's message and makes exactly one terminal call on the event's
completion sink: `next []` then `complete` when the send fulfils, `error e`
with the same error when it rejects. -/
theorem c3_exactly_one_terminal_call (proc : ModelProcessor) (s : ChatState)
    (event : ProcessorEvent) (now completedAt : String) (tr : TransportOutcome) :
    ((handleProcessorEvent proc s event now completedAt tr).2).countP
        isTerminalSinkCall = 1 ∧
    (handleProcessorEvent proc s event now completedAt tr).1 =
      (sendMessage proc s event.message now completedAt tr).1 ∧
    (∀ resp, tr = TransportOutcome.ok resp →
      (handleProcessorEvent proc s event now completedAt tr).2 =
        [SinkCall.next [], SinkCall.complete]) ∧
    (∀ e, tr = TransportOutcome.rejected e →
      (handleProcessorEvent proc s event now completedAt tr).2 =
        [SinkCall.error e]) := by
  cases tr with
  | rejected e =>
      refine ⟨?_, rfl, ?_, ?_⟩
      · simp [handleProcessorEvent, sendMessage, List.countP, List.countP.go,
          isTerminalSinkCall]
      · intro resp h; cases h
      · intro e' h
        cases h
        rfl
  | ok resp =>
      refine ⟨?_, rfl, ?_, ?_⟩
      · simp [handleProcessorEvent, sendMessage, List.countP, List.countP.go,
          isTerminalSinkCall]
      · intro resp' h
        cases h
        rfl
      · intro e h; cases h

/-- C3 witness: on a concrete successful event and on a concrete rejected
event, the subscriber makes the stated sink calls. -/
theorem c3_witness :
    (handleProcessorEvent procW (initialChatState procW) eventW "t0" "t1"
        (TransportOutcome.ok respW)).2 =
      [SinkCall.next [], SinkCall.complete] ∧
    (handleProcessorEvent procW (initialChatState procW) eventW "t0" "t1"
        (TransportOutcome.rejected errW)).2 = [SinkCall.error errW] :=
  ⟨(c3_exactly_one_terminal_call procW (initialChatState procW) eventW "t0" "t1"
      (TransportOutcome.ok respW)).2.2.1 respW rfl,
   (c3_exactly_one_terminal_call procW (initialChatState procW) eventW "t0" "t1"
      (TransportOutcome.rejected errW)).2.2.2 errW rfl⟩

/-- C5: the conversation context id starts empty, is set to a truthy
server-supplied value on a successful cycle that carries one, and once
non-empty never becomes empty again on any later cycle. -/
theorem c5_contextId_monotone :
    (∀ proc, (initialChatState proc).contextId = "") ∧
    (∀ proc s input now completedAt resp c,
      resultContextId resp.result = some c → c ≠ "" →
      ((sendMessage proc s input now completedAt
          (TransportOutcome.ok resp)).1).contextId = c) ∧
    (∀ proc s input now completedAt tr,
      s.contextId ≠ "" →
      ((sendMessage proc s input now completedAt tr).1).contextId ≠ "") := by
  refine ⟨fun proc => rfl, ?_, ?_⟩
  · intro proc s input now completedAt resp c hc hne
    simp [sendMessage, successState, phase1State, adoptContextId, hc, hne]
  · intro proc s input now completedAt tr hs
    cases tr with
    | rejected e => simpa [sendMessage, phase1State] using hs
    | ok resp =>
        simp only [sendMessage, successState, phase1State]
        cases h : resultContextId resp.result with
        | none => simpa [adoptContextId] using hs
        | some c =>
            by_cases hc : c = ""
            · simpa [adoptContextId, hc] using hs
            · simp [adoptContextId, hc]

/-- C5 witness: a first successful cycle from the initial state adopts the
concrete server context id, and a cycle from a state with a non-empty context
id leaves it non-empty. -/
theorem c5_witness :
    ((sendMessage procW (initialChatState procW) (SendInput.str "hi") "t0" "t1"
        (TransportOutcome.ok respW)).1).contextId = "ctx-1" ∧
    ((sendMessage procW stateCtx (SendInput.str "hi") "t0" "t1"
        (TransportOutcome.rejected errW)).1).contextId ≠ "" :=
  ⟨c5_contextId_monotone.2.1 procW (initialChatState procW) (SendInput.str "hi")
      "t0" "t1" respW "ctx-1" rfl (by decide),
   c5_contextId_monotone.2.2 procW stateCtx (SendInput.str "hi") "t0" "t1"
      (TransportOutcome.rejected errW) (by decide)⟩

/-- C6: classification of a task result yields the status message's parts
(empty when absent) followed by the artifacts' parts in artifact-array order,
each artifact's parts in their own order; a message result yields its parts
unchanged. -/
theorem c6_classify_order :
    (∀ t : Task,
      classifyParts (A2aResult.task t) =
        (match t.status.message with
         | some m => m.parts
         | none => ([] : List Part)) ++
          ((t.artifacts.getD []).map Artifact.parts).flatten) ∧
    (∀ m : A2aMessage, classifyParts (A2aResult.message m) = m.parts) := by
  refine ⟨?_, fun m => rfl⟩
  intro t
  cases h : t.status.message <;>
    simp [classifyParts, h, List.flatMap]

/-- C7: a classified truthy `beginRendering` data part appears exactly once
as a command in the batch handed to the rendering processor AND exactly once
wrapped as a content of the completed agent turn. -/
theorem c7_beginRendering_in_both_projections (proc : ModelProcessor)
    (s : ChatState) (input : SendInput) (now completedAt : String)
    (resp : SendMessageSuccessResponse) (l1 l2 : List Part) (d : DataObj)
    (md : Option String) (v : JsonVal)
    (hparts : classifyParts resp.result = l1 ++ Part.data d md :: l2)
    (hkey : d.beginRendering = some v) (ht : v.isTruthy = true) :
    ((sendMessage proc s input now completedAt
        (TransportOutcome.ok resp)).1).processorReceived =
      s.processorReceived ++
        (l1.filterMap toA2uiDataPart ++
          ServerToClientMessage.beginRendering v ::
            l2.filterMap toA2uiDataPart) ∧
    ((((sendMessage proc s input now completedAt
        (TransportOutcome.ok resp)).1).history.getLast?).map
      (fun m => m.contents.map UiMessageContent.data)) =
      some (l1.filter isHistoryContentPart ++
        Part.data d md :: l2.filter isHistoryContentPart) := by
  have hm : toA2uiDataPart (Part.data d md) =
      some (ServerToClientMessage.beginRendering v) :=
    toA2uiDataPart_beginRendering d md v hkey ht
  have hc : isHistoryContentPart (Part.data d md) = true := by
    simp [isHistoryContentPart, hkey]
  constructor
  · simp [sendMessage, successState, phase1State, hparts, hm]
  · rw [sendMessage_ok_history]
    simp [completeAgentTurn, mkAgentTurn, mkAgentContents_fst_map_data,
      hparts, hc]

/-- C7 witness: on a concrete response holding one text part followed by one
truthy `beginRendering` data part, the command batch holds the envelope once
and the completed agent turn wraps the original part once. -/
theorem c7_witness :
    ((sendMessage procW (initialChatState procW) (SendInput.str "hi") "t0" "t1"
        (TransportOutcome.ok respBr)).1).processorReceived =
      (initialChatState procW).processorReceived ++
        ([Part.text "x"].filterMap toA2uiDataPart ++
          ServerToClientMessage.beginRendering ⟨5, true⟩ ::
            List.filterMap toA2uiDataPart []) ∧
    ((((sendMessage procW (initialChatState procW) (SendInput.str "hi") "t0" "t1"
        (TransportOutcome.ok respBr)).1).history.getLast?).map
      (fun m => m.contents.map UiMessageContent.data)) =
      some ([Part.text "x"].filter isHistoryContentPart ++
        Part.data dW none :: List.filter isHistoryContentPart []) :=
  c7_beginRendering_in_both_projections procW (initialChatState procW)
    (SendInput.str "hi") "t0" "t1" respBr [Part.text "x"] [] dW none
    ⟨5, true⟩ rfl rfl rfl

/-- C8: the command mapper tests the four recognized keys by truthiness in
the fixed order beginRendering, surfaceUpdate, dataModelUpdate,
deleteSurface, emitting only the first truthy key; a present-but-falsy
`beginRendering` key is never emitted as a `beginRendering` command, yet the
content filter (key presence via `in`) still keeps the part. -/
theorem c8_key_priority_and_presence :
    (∀ d md v, d.beginRendering = some v → v.isTruthy = true →
      toA2uiDataPart (Part.data d md) =
        some (ServerToClientMessage.beginRendering v)) ∧
    (∀ d md v, truthyVal d.beginRendering = none →
      d.surfaceUpdate = some v → v.isTruthy = true →
      toA2uiDataPart (Part.data d md) =
        some (ServerToClientMessage.surfaceUpdate v)) ∧
    (∀ d md v, truthyVal d.beginRendering = none →
      truthyVal d.surfaceUpdate = none →
      d.dataModelUpdate = some v → v.isTruthy = true →
      toA2uiDataPart (Part.data d md) =
        some (ServerToClientMessage.dataModelUpdate v)) ∧
    (∀ d md v, truthyVal d.beginRendering = none →
      truthyVal d.surfaceUpdate = none →
      truthyVal d.dataModelUpdate = none →
      d.deleteSurface = some v → v.isTruthy = true →
      toA2uiDataPart (Part.data d md) =
        some (ServerToClientMessage.deleteSurface v)) ∧
    (∀ d md v, d.beginRendering = some v → v.isTruthy = false →
      (∀ w, toA2uiDataPart (Part.data d md) ≠
        some (ServerToClientMessage.beginRendering w)) ∧
      isHistoryContentPart (Part.data d md) = true) := by
  refine ⟨?_, ?_, ?_, ?_, ?_⟩
  · exact fun d md v h ht => toA2uiDataPart_beginRendering d md v h ht
  · intro d md v h1 h2 ht
    simp only [toA2uiDataPart, h1]
    simp [truthyVal, h2, ht]
  · intro d md v h1 h2 h3 ht
    simp only [toA2uiDataPart, h1, h2]
    simp [truthyVal, h3, ht]
  · intro d md v h1 h2 h3 h4 ht
    simp only [toA2uiDataPart, h1, h2, h3]
    simp [truthyVal, h4, ht]
  · intro d md v h ht
    have hb : truthyVal d.beginRendering = none := by simp [truthyVal, h, ht]
    refine ⟨?_, by simp [isHistoryContentPart, h]⟩
    intro w
    simp only [toA2uiDataPart, hb]
    cases h1 : truthyVal d.surfaceUpdate <;>
      cases h2 : truthyVal d.dataModelUpdate <;>
        cases h3 : truthyVal d.deleteSurface <;> simp

/-- C8 witness: a truthy `beginRendering` key wins outright; with
`beginRendering` present-but-falsy and `surfaceUpdate` truthy, the emitted
command is `surfaceUpdate`, yet the content filter keeps the part. -/
theorem c8_witness :
    toA2uiDataPart (Part.data dW none) =
      some (ServerToClientMessage.beginRendering ⟨5, true⟩) ∧
    toA2uiDataPart (Part.data dFalsy none) =
      some (ServerToClientMessage.surfaceUpdate ⟨8, true⟩) ∧
    isHistoryContentPart (Part.data dFalsy none) = true :=
  ⟨c8_key_priority_and_presence.1 dW none ⟨5, true⟩ rfl rfl,
   c8_key_priority_and_presence.2.1 dFalsy none ⟨8, true⟩ rfl rfl rfl,
   (c8_key_priority_and_presence.2.2.2.2 dFalsy none ⟨7, false⟩ rfl rfl).2⟩

/-- C9: on a successful cycle the user turn is still exactly the turn built
at cycle start — its status permanently pending — while only the final
history element was replaced by a completed agent turn. -/
theorem c9_user_turn_stays_pending (proc : ModelProcessor) (s : ChatState)
    (input : SendInput) (now completedAt : String)
    (resp : SendMessageSuccessResponse) :
    (((sendMessage proc s input now completedAt
        (TransportOutcome.ok resp)).1).history)[s.history.length]? =
      some (mkUserTurn input s.contextId now s.nextUuid).1 ∧
    ((mkUserTurn input s.contextId now s.nextUuid).1).status =
      MsgStatus.pending ∧
    ((((sendMessage proc s input now completedAt
        (TransportOutcome.ok resp)).1).history)[s.history.length + 1]?).map
      UiMessage.status = some MsgStatus.completed := by
  refine ⟨?_, rfl, ?_⟩
  · rw [sendMessage_ok_history,
      List.getElem?_append_right (Nat.le_refl _)]
    simp
  · rw [sendMessage_ok_history,
      List.getElem?_append_right (Nat.le_succ_of_le (Nat.le_refl _))]
    simp [completeAgentTurn]

/-- C10: both turns of a cycle record the context id as it was at cycle
start, and the completed agent turn keeps it even when the response carries a
new one that the state adopts. -/
theorem c10_turns_record_cycle_start_context (proc : ModelProcessor)
    (s : ChatState) (input : SendInput) (now completedAt : String)
    (resp : SendMessageSuccessResponse) (c : String)
    (hc : resultContextId resp.result = some c) (hne : c ≠ "") :
    ((((sendMessage proc s input now completedAt
        (TransportOutcome.ok resp)).1).history)[s.history.length]?).map
      UiMessage.context_id = some s.contextId ∧
    ((((sendMessage proc s input now completedAt
        (TransportOutcome.ok resp)).1).history)[s.history.length + 1]?).map
      UiMessage.context_id = some s.contextId ∧
    ((sendMessage proc s input now completedAt
        (TransportOutcome.ok resp)).1).contextId = c := by
  refine ⟨?_, ?_, ?_⟩
  · rw [sendMessage_ok_history,
      List.getElem?_append_right (Nat.le_refl _)]
    simp [mkUserTurn]
  · rw [sendMessage_ok_history,
      List.getElem?_append_right (Nat.le_succ_of_le (Nat.le_refl _))]
    simp [completeAgentTurn, mkAgentTurn]
  · simp [sendMessage, successState, phase1State, adoptContextId, hc, hne]

/-- C10 witness: on the first successful cycle both stored turns carry the
empty context id although the state afterwards holds the server-supplied
value. -/
theorem c10_witness :
    ((((sendMessage procW (initialChatState procW) (SendInput.str "hi") "t0"
        "t1" (TransportOutcome.ok respW)).1).history)[
          (initialChatState procW).history.length]?).map
      UiMessage.context_id = some (initialChatState procW).contextId ∧
    ((((sendMessage procW (initialChatState procW) (SendInput.str "hi") "t0"
        "t1" (TransportOutcome.ok respW)).1).history)[
          (initialChatState procW).history.length + 1]?).map
      UiMessage.context_id = some (initialChatState procW).contextId ∧
    ((sendMessage procW (initialChatState procW) (SendInput.str "hi") "t0"
        "t1" (TransportOutcome.ok respW)).1).contextId = "ctx-1" :=
  c10_turns_record_cycle_start_context procW (initialChatState procW)
    (SendInput.str "hi") "t0" "t1" respW "ctx-1" rfl (by decide)

end A2UI
